import Mathlib

/-!
Verification of the Synapse cross-channel memory system.

This file gives a shallow embedding, in Lean 4, of the parts of the
TypeScript source that the verified properties are about:

* `src/lib/services/identity-linker.ts` — probabilistic identity linking
  (cosine similarity, the four similarity signals, the 0.82 match
  threshold, pseudo-user-id generation, and the MongoDB identity map).
* `src/lib/services/memory-storage.ts` — store read/write wrappers and
  their error policy.
* `src/lib/services/urgency-predictor.ts` — the urgency score.
* `src/lib/services/problem-extractor.ts` — problem criticality.
* `src/app/api/memory/store/route.ts` and
  `src/lib/services/memory-retrieval.ts` — the read phases of the store
  and retrieve pipelines, modelled as traces of issue/complete events.

JavaScript numbers are modelled as exact reals (`ℝ`); where a value is
only ever produced and consumed by rational operations and compared, `ℚ`
is used so the definitions stay decidable.  `Math.random` is modelled as
an ambient stream `ℕ → ℚ` of samples in `[0, 1)`.  External
collaborators (the SHA-256 hashing utility, the store clients) are
modelled as function parameters / `Except` results, per the spec's
collaborator contracts.
-/

namespace Synapse

/-- A message as consumed by the identity linker (`Array<{ text: string }>`
in the source: only the `text` field is ever read). -/
structure TextMsg where
  text : String
  deriving DecidableEq, Repr

/-- `MultiVectorEmbedding` from `src/lib/types/memory.ts`. -/
structure MultiVectorEmbedding where
  intent_vector : List ℝ
  frustration_vector : List ℝ
  product_vector : List ℝ

/-- `SessionMetadata` from `src/lib/types/memory.ts`; all four fields are
optional. -/
structure SessionMetadata where
  ip : Option String
  geo : Option String
  lang : Option String
  user_agent : Option String

/-- The fields of the union type `RedisVectorPoint | QdrantMemoryPoint`
that the identity linker actually reads (`intent_vector` and
`pseudo_user_id` — see the comments at lines 82 and 282 of
`identity-linker.ts`). -/
structure HistoricalPoint where
  pseudo_user_id : String
  intent_vector : List ℝ

/-- JavaScript truthiness of an optional string value (`undefined` and the
empty string are falsy). -/
def optTruthy : Option String → Bool
  | some s => !(s == "")
  | none => false

/-- `String.prototype.toLowerCase` (ASCII). -/
def lowerStr (s : String) : String := ⟨s.data.map Char.toLower⟩

/-- Helper for `jsIncludes`: does `l₂` start with `l₁`? -/
def prefixEq : List Char → List Char → Bool
  | [], _ => true
  | _ :: _, [] => false
  | a :: as, b :: bs => a == b && prefixEq as bs

/-- Helper for `jsIncludes`: does `needle` occur contiguously in the
list? -/
def containsSeq (needle : List Char) : List Char → Bool
  | [] => needle.isEmpty
  | c :: rest => prefixEq needle (c :: rest) || containsSeq needle rest

/-- `String.prototype.includes` (`s.includes(sub)`). -/
def jsIncludes (s sub : String) : Bool := containsSeq sub.data s.data

/-- Worker for `splitWs`: splits on maximal whitespace runs, like the
JavaScript `split(/\s+/)` (a leading or trailing run contributes an empty
segment). -/
def splitWsGo : Bool → List Char → List Char → List (List Char)
  | _, acc, [] => [acc.reverse]
  | prevWs, acc, c :: rest =>
    if c.isWhitespace then
      if prevWs then splitWsGo true acc rest
      else acc.reverse :: splitWsGo true [] rest
    else splitWsGo false (c :: acc) rest

/-- `text.split(/\s+/)`. -/
def splitWs (s : String) : List String := (splitWsGo false [] s.data).map (fun l => (⟨l⟩ : String))

/-- The set of lowercased whitespace-separated words of a text (the
`new Set(text.toLowerCase().split(/\s+/))` idiom shared by
`isSimilarMessage` and `isSimilarProblem`). -/
def wordSet (t : String) : Finset String := (splitWs (lowerStr t)).toFinset

/- ---------------------------------------------------------------------
Identity linker: `src/lib/services/identity-linker.ts`
--------------------------------------------------------------------- -/

/-- The fixed signal weights (`WEIGHTS`, lines 19–24). -/
structure Weights where
  vector : ℝ
  metadata : ℝ
  behavior : ℝ
  identifier : ℝ

/-- `WEIGHTS = { vector: 0.35, metadata: 0.25, behavior: 0.2, identifier: 0.2 }`. -/
noncomputable def WEIGHTS : Weights := ⟨0.35, 0.25, 0.2, 0.2⟩

/-- `MATCH_THRESHOLD = 0.82` (line 18). -/
noncomputable def MATCH_THRESHOLD : ℝ := 0.82

/-- The accumulation loop `for (i = 0; i < n; i++) acc += v[i] * w[i]`
shared by the dot product and both squared norms in `cosineSimilarity`. -/
noncomputable def loopDot (n : ℕ) (v w : List ℝ) : ℝ :=
  ∑ i ∈ Finset.range n, v.getD i 0 * w.getD i 0

/-- `cosineSimilarity` (lines 48–69): returns 0 on a length mismatch and
when the denominator `sqrt(norm1) * sqrt(norm2)` is zero (the source's
locals `dotProduct`, `norm1`, `norm2`, `denominator` are inlined). -/
noncomputable def cosineSimilarity (vec1 vec2 : List ℝ) : ℝ :=
  if vec1.length ≠ vec2.length then 0
  else if Real.sqrt (loopDot vec1.length vec1 vec1) * Real.sqrt (loopDot vec1.length vec2 vec2) = 0
    then 0
  else loopDot vec1.length vec1 vec2 /
    (Real.sqrt (loopDot vec1.length vec1 vec1) * Real.sqrt (loopDot vec1.length vec2 vec2))

/-- `calculateVectorSimilarity` (lines 75–89): mean cosine similarity of
the incoming intent vector against every historical intent vector. -/
noncomputable def calculateVectorSimilarity (incomingEmbedding : MultiVectorEmbedding)
    (historicalVectors : List HistoricalPoint) : ℝ :=
  if historicalVectors.isEmpty then 0
  else
    let similarities := historicalVectors.map fun historical =>
      cosineSimilarity incomingEmbedding.intent_vector historical.intent_vector
    similarities.sum / similarities.length

/-- The number of comparable fields and the number of matching fields
among `{ip, geo, lang}` in `calculateMetadataSimilarity` (lines 100–122);
a field pair is counted only when both sides are truthy. -/
def metadataCounts (a b : SessionMetadata) : ℕ × ℕ :=
  let fields := [(a.ip, b.ip), (a.geo, b.geo), (a.lang, b.lang)]
  (fields.countP (fun p => optTruthy p.1 && optTruthy p.2 && p.1 == p.2),
   fields.countP (fun p => optTruthy p.1 && optTruthy p.2))

/-- `calculateMetadataSimilarity` (lines 95–125). -/
noncomputable def calculateMetadataSimilarity (incomingMetadata historicalMetadata : Option SessionMetadata) : ℝ :=
  match incomingMetadata, historicalMetadata with
  | some a, some b =>
    let matchCount := (metadataCounts a b).1
    let total := (metadataCounts a b).2
    if 0 < total then (matchCount : ℝ) / total else 0
  | _, _ => 0

/-- The punctuation class `[.!?,;:]` of `analyzeWritingStyle`. -/
def isPunctChar (c : Char) : Bool :=
  c == '.' || c == '!' || c == '?' || c == ',' || c == ';' || c == ':'

/-- The capital-letter class `[A-Z]`. -/
def isUpperAZ (c : Char) : Bool := 'A' ≤ c && c ≤ 'Z'

/-- Result record of `analyzeWritingStyle`. -/
structure WritingStyle where
  avgLength : ℝ
  punctuationRatio : ℝ
  capitalizationRatio : ℝ

/-- `analyzeWritingStyle` (lines 131–162): average message length,
punctuation density and capital-letter density over a message set. -/
noncomputable def analyzeWritingStyle (messages : List TextMsg) : WritingStyle :=
  if messages.isEmpty then ⟨0, 0, 0⟩
  else
    let totalLength : ℕ := (messages.map fun m => m.text.length).sum
    let totalChars : ℕ := totalLength
    let punctuationCount : ℕ := (messages.map fun m => m.text.data.countP isPunctChar).sum
    let capitalizationCount : ℕ := (messages.map fun m => m.text.data.countP isUpperAZ).sum
    ⟨(totalLength : ℝ) / messages.length,
     if 0 < totalChars then (punctuationCount : ℝ) / totalChars else 0,
     if 0 < totalChars then (capitalizationCount : ℝ) / totalChars else 0⟩

/-- `calculateBehaviorSimilarity` (lines 168–183). -/
noncomputable def calculateBehaviorSimilarity (currentMessages historicalMessages : List TextMsg) : ℝ :=
  if currentMessages.isEmpty || historicalMessages.isEmpty then 0
  else
    let currentStyle := analyzeWritingStyle currentMessages
    let historicalStyle := analyzeWritingStyle historicalMessages
    let lengthSimilarity := 1 - min 1 (|currentStyle.avgLength - historicalStyle.avgLength| / 100)
    let punctuationSimilarity := 1 - |currentStyle.punctuationRatio - historicalStyle.punctuationRatio|
    let capitalizationSimilarity := 1 - |currentStyle.capitalizationRatio - historicalStyle.capitalizationRatio|
    (lengthSimilarity + punctuationSimilarity + capitalizationSimilarity) / 3

/-- ASCII word characters, the `\w` class used by the `\b` boundary
assertions of the identifier regexes. -/
def isWordChar (c : Char) : Bool := c.isAlphanum || c == '_'

/-- A `\b` boundary holds after a word character exactly when the next
character is absent or not a word character. -/
def boundaryAfter : List Char → Bool
  | [] => true
  | c :: _ => !(isWordChar c)

/-- Length of a match of the order-id regex `([A-Z]{2,}\d+|[A-Z]+-\d+)\b`
at the head of the list (the leading `\b` is checked by the caller).
First alternative: at least two capitals then at least one digit;
second alternative: capitals, a hyphen, digits. -/
def orderMatchLen (l : List Char) : Option ℕ :=
  let u := l.takeWhile isUpperAZ
  let r1 := l.drop u.length
  let alt1 :=
    if 2 ≤ u.length then
      let d := r1.takeWhile Char.isDigit
      if 1 ≤ d.length && boundaryAfter (r1.drop d.length) then some (u.length + d.length) else none
    else none
  match alt1 with
  | some n => some n
  | none =>
    if 1 ≤ u.length then
      match r1 with
      | '-' :: r2 =>
        let d := r2.takeWhile Char.isDigit
        if 1 ≤ d.length && boundaryAfter (r2.drop d.length) then some (u.length + 1 + d.length)
        else none
      | _ => none
    else none

/-- Length of a match of the phone regex `\d{10,}\b` at the head of the
list. -/
def phoneMatchLen (l : List Char) : Option ℕ :=
  let d := l.takeWhile Char.isDigit
  if 10 ≤ d.length && boundaryAfter (l.drop d.length) then some d.length else none

/-- The email local-part class `[A-Za-z0-9._%+-]`. -/
def isLocalChar (c : Char) : Bool :=
  c.isAlphanum || c == '.' || c == '_' || c == '%' || c == '+' || c == '-'

/-- The email domain class `[A-Za-z0-9.-]`. -/
def isDomainChar (c : Char) : Bool := c.isAlphanum || c == '.' || c == '-'

/-- The top-level-domain class `[A-Z|a-z]` (the source pattern literally
includes `|` inside the character class). -/
def isTldChar (c : Char) : Bool := c.isAlpha || c == '|'

/-- Does a domain run end in `.` followed by a top-level label of length
at least two, with at least one character before that dot?  This captures
the effect of the regex backtracking `[A-Za-z0-9.-]+\.[A-Z|a-z]{2,}` on a
boundary-delimited token. -/
def validDomain (dom : List Char) : Bool :=
  let tld := (dom.reverse.takeWhile isTldChar).reverse
  let k := dom.length - tld.length
  2 ≤ tld.length && 2 ≤ k && dom.getD (k - 1) ' ' == '.'

/-- Length of a match of the email regex
`[A-Za-z0-9._%+-]+@[A-Za-z0-9.-]+\.[A-Z|a-z]{2,}\b` at the head of the
list. -/
def emailMatchLen (l : List Char) : Option ℕ :=
  let localPart := l.takeWhile isLocalChar
  if localPart.length == 0 then none
  else
    match l.drop localPart.length with
    | '@' :: r2 =>
      let dom := r2.takeWhile isDomainChar
      if 1 ≤ dom.length && validDomain dom && boundaryAfter (r2.drop dom.length) then
        some (localPart.length + 1 + dom.length)
      else none
    | _ => none

/-- Global scan of `text.match(/.../g)`: at every position whose previous
character is not a word character (the leading `\b`), try the matcher;
on success emit the token and resume after it, otherwise slide one
character.  All three identifier patterns begin and end with word
characters, so tracking only the previous-is-word-character bit is a
faithful rendering of the `\b` assertions. -/
def scanMatches (matcher : List Char → Option ℕ) (prevWord : Bool) (l : List Char) : List (List Char) :=
  match l with
  | [] => []
  | c :: rest =>
    if prevWord then scanMatches matcher (isWordChar c) rest
    else
      match matcher (c :: rest) with
      | some n =>
        if h : 0 < n then
          (c :: rest).take n :: scanMatches matcher true ((c :: rest).drop n)
        else scanMatches matcher (isWordChar c) rest
      | none => scanMatches matcher (isWordChar c) rest
termination_by l.length
decreasing_by
  all_goals simp [List.length_drop]
  all_goals omega

/-- `extractIdentifiers` (lines 189–214): order ids, then 10+-digit
numbers, then email addresses, in that order. -/
def extractIdentifiers (text : String) : List String :=
  ((scanMatches orderMatchLen false text.data) ++
   (scanMatches phoneMatchLen false text.data) ++
   (scanMatches emailMatchLen false text.data)).map (fun l => (⟨l⟩ : String))

/-- `calculateIdentifierOverlap` (lines 220–241): maximum Jaccard overlap
between the current identifier set and each historical text's identifier
set. -/
noncomputable def calculateIdentifierOverlap (currentText : String) (historicalTexts : List String) : ℝ :=
  if historicalTexts.isEmpty then 0
  else
    let currentIdentifiers := (extractIdentifiers currentText).toFinset
    if currentIdentifiers.card == 0 then 0
    else
      historicalTexts.foldl
        (fun maxOverlap historicalText =>
          let historicalIdentifiers := (extractIdentifiers historicalText).toFinset
          let inter := currentIdentifiers ∩ historicalIdentifiers
          let uni := currentIdentifiers ∪ historicalIdentifiers
          let overlap := if 0 < uni.card then (inter.card : ℝ) / uni.card else 0
          max maxOverlap overlap)
        0

/-- The match score of line 268:
`WEIGHTS.vector * vectorSim + WEIGHTS.metadata * metadataSim +
WEIGHTS.behavior * behaviorSim + WEIGHTS.identifier * identifierSim`,
with the four signals computed as in `findExistingPseudoUserId`
(lines 259–265). -/
noncomputable def matchScore (embeddings : MultiVectorEmbedding) (metadata : Option SessionMetadata)
    (currentMessages : List TextMsg) (historicalVectors : List HistoricalPoint)
    (historicalMetadata : Option SessionMetadata) (historicalMessages : List TextMsg) : ℝ :=
  let vectorSim := calculateVectorSimilarity embeddings historicalVectors
  let metadataSim := calculateMetadataSimilarity metadata historicalMetadata
  let behaviorSim := calculateBehaviorSimilarity currentMessages historicalMessages
  let currentText := String.intercalate " " (currentMessages.map fun m => m.text)
  let historicalTexts := historicalMessages.map fun m => m.text
  let identifierSim := calculateIdentifierOverlap currentText historicalTexts
  WEIGHTS.vector * vectorSim + WEIGHTS.metadata * metadataSim +
    WEIGHTS.behavior * behaviorSim + WEIGHTS.identifier * identifierSim

/-- `findExistingPseudoUserId` (lines 246–287): `null` when there are no
historical candidates, otherwise the first candidate's `pseudo_user_id`
when the match score strictly exceeds `MATCH_THRESHOLD`, else `null`.
(The source's extra `historicalVectors.length > 0` conjunct at line 280
is subsumed by the non-empty match arm.) -/
noncomputable def findExistingPseudoUserId (embeddings : MultiVectorEmbedding)
    (metadata : Option SessionMetadata) (currentMessages : List TextMsg)
    (historicalVectors : List HistoricalPoint) (historicalMetadata : Option SessionMetadata)
    (historicalMessages : List TextMsg) : Option String :=
  match historicalVectors with
  | [] => none
  | firstMatch :: rest =>
    if matchScore embeddings metadata currentMessages (firstMatch :: rest) historicalMetadata
        historicalMessages > MATCH_THRESHOLD then
      some firstMatch.pseudo_user_id
    else none

/-- The digit alphabet `"0123456789ABCDEF"` of `generatePseudoUserId`. -/
def hexChars : List Char := "0123456789ABCDEF".data

/-- `Math.floor(Math.random() * chars.length)` for the `k`-th sample of
the ambient `Math.random` stream. -/
def randIndex (rand : ℕ → ℚ) (k : ℕ) : ℕ := (⌊rand k * 16⌋).toNat

/-- `chars[Math.floor(Math.random() * chars.length)]` for the `k`-th
sample. -/
def randChar (rand : ℕ → ℚ) (k : ℕ) : Char := hexChars.getD (randIndex rand k) '?'

/-- One segment of `generatePseudoUserId`: `length` successive samples
starting at stream position `start`. -/
def genSegment (rand : ℕ → ℚ) (start length : ℕ) : List Char :=
  (List.range length).map fun i => randChar rand (start + i)

/-- `generatePseudoUserId` (lines 30–43): five segments of lengths
8-4-4-4-12 drawn character by character from `Math.random`, joined with
hyphens.  `Math.random` is a deterministic function of its hidden PRNG
state; it is modelled by the stream `rand` of its successive outputs, the
call consuming the 32 samples `start, …, start + 31`. -/
def generatePseudoUserId (rand : ℕ → ℚ) (start : ℕ) : String :=
  ⟨List.intercalate ['-']
    [genSegment rand start 8, genSegment rand (start + 8) 4, genSegment rand (start + 12) 4,
     genSegment rand (start + 16) 4, genSegment rand (start + 20) 12]⟩

/-- An uppercase hexadecimal digit. -/
def isUpperHexChar (c : Char) : Bool := c.isDigit || ('A' ≤ c && c ≤ 'F')

/-- The `8-4-4-4-12` uppercase-hex pseudo-user-id format of the spec
(the test suite's `/^[0-9A-F]{8}-[0-9A-F]{4}-[0-9A-F]{4}-[0-9A-F]{4}-[0-9A-F]{12}$/`). -/
def pseudoIdFormat (s : String) : Bool :=
  let groups := s.data.splitOn '-'
  (groups.map List.length == [8, 4, 4, 4, 12]) && groups.all fun g => g.all isUpperHexChar

/-- `linkIdentity` (lines 293–342): mint a fresh id when there are no
historical candidates (`undefined` or empty), otherwise return the match
from `findExistingPseudoUserId` when it is truthy (a non-empty string),
else mint a fresh id.  The `try`/`catch` around the body is vacuous in
this pure model. -/
noncomputable def linkIdentity (rand : ℕ → ℚ) (start : ℕ) (embeddings : MultiVectorEmbedding)
    (metadata : Option SessionMetadata) (historicalVectors : Option (List HistoricalPoint))
    (currentMessages historicalMessages : List TextMsg)
    (historicalMetadata : Option SessionMetadata) : String :=
  match historicalVectors with
  | none => generatePseudoUserId rand start
  | some [] => generatePseudoUserId rand start
  | some (h :: t) =>
    match findExistingPseudoUserId embeddings metadata currentMessages (h :: t) historicalMetadata
        historicalMessages with
    | some existingPseudoUserId =>
      if existingPseudoUserId = "" then generatePseudoUserId rand start else existingPseudoUserId
    | none => generatePseudoUserId rand start

/- ---------------------------------------------------------------------
Identity map: `linkIdentityToMap` (identity-linker.ts lines 348–404)
--------------------------------------------------------------------- -/

/-- `LinkedSession` from `src/lib/types/memory.ts` (`channel_user_id` is
stored hashed).  Confidence is a rational in this model. -/
structure LinkedSession where
  channel : String
  channel_user_id : String
  confidence : ℚ
  deriving DecidableEq, Repr

/-- `IdentityMapEntry` from `src/lib/types/memory.ts`. -/
structure IdentityMapEntry where
  pseudo_user_id : String
  linked_sessions : List LinkedSession
  updated_at : ℕ
  deriving DecidableEq, Repr

/-- The MongoDB `user_identity_map` collection, as the ordered list of its
documents; `findOne`/`updateOne` act on the first matching document. -/
abbrev IdentityMap := List IdentityMapEntry

/-- Update the first element satisfying `p` (MongoDB `updateOne`, and the
in-place mutation of the element found by `Array.prototype.findIndex`). -/
def updateFirst (p : α → Bool) (f : α → α) : List α → List α
  | [] => []
  | x :: xs => if p x then f x :: xs else x :: updateFirst p f xs

/-- Does a linked session match the `(channel, hashed id)` pair the way
line 359 compares (`session.channel === channel &&
session.channel_user_id === hashedChannelUserId`)? -/
def sessionMatches (channel hashed : String) (s : LinkedSession) : Bool :=
  s.channel == channel && s.channel_user_id == hashed

/-- The update applied to an existing entry's `linked_sessions`
(lines 358–373): raise the confidence of the first matching link only
when the new confidence is strictly higher, or push a new link when the
pair is absent. -/
def updateLinkedSessions (channel hashed : String) (confidence : ℚ)
    (linkedSessions : List LinkedSession) : List LinkedSession :=
  if linkedSessions.any (sessionMatches channel hashed) then
    updateFirst (sessionMatches channel hashed)
      (fun s => if confidence > s.confidence then { s with confidence := confidence } else s)
      linkedSessions
  else
    linkedSessions ++ [⟨channel, hashed, confidence⟩]

/-- `linkIdentityToMap` (lines 348–404).  The SHA-256 hashing collaborator
is abstracted as the deterministic function `hashFn` (the spec's
`hash(raw_identifier) -> opaque string` contract); `now` is the
`Math.floor(Date.now() / 1000)` timestamp.  `findOne`ing an existing
entry for `pseudoUserId` leads to an `updateOne` of that document,
otherwise a fresh document is inserted. -/
def linkIdentityToMap (hashFn : String → String) (st : IdentityMap)
    (pseudoUserId channel channelUserId : String) (confidence : ℚ) (now : ℕ) : IdentityMap :=
  let hashedChannelUserId := hashFn channelUserId
  if st.any (fun e => e.pseudo_user_id == pseudoUserId) then
    updateFirst (fun e => e.pseudo_user_id == pseudoUserId)
      (fun e =>
        { e with
          linked_sessions := updateLinkedSessions channel hashedChannelUserId confidence e.linked_sessions,
          updated_at := now })
      st
  else
    st ++ [⟨pseudoUserId, [⟨channel, hashedChannelUserId, confidence⟩], now⟩]

/-- How many links of a `linked_sessions` list carry the given
`(channel, hashed id)` pair. -/
def pairCount (channel hashed : String) (ls : List LinkedSession) : ℕ :=
  ls.countP (sessionMatches channel hashed)

/-- How many identity-map documents contain the given pair at all. -/
def entriesWithPair (channel hashed : String) (st : IdentityMap) : ℕ :=
  (st.filter fun e => decide (0 < pairCount channel hashed e.linked_sessions)).length

/-- The spec's data-model invariant: each `(channel, hashed id)` pair
appears in at most one entry's `linked_sessions`. -/
def pairUnique (st : IdentityMap) : Prop :=
  ∀ channel hashed : String, entriesWithPair channel hashed st ≤ 1

/- ---------------------------------------------------------------------
Shared message / store record types: `src/lib/types/memory.ts`
--------------------------------------------------------------------- -/

/-- `MessageRole`. -/
inductive MessageRole where
  | user
  | assistant
  | system_
  deriving DecidableEq, Repr

/-- `Message` (the `system` role is spelled `system_` here). -/
structure Message where
  ts : ℤ
  role : MessageRole
  text : String
  summary : String

/-- `RedisSessionData`. -/
structure RedisSessionData where
  messages : List Message
  intent_vector : List ℝ
  frustration_level : ℝ

/-- `RedisVectorPoint`. -/
structure RedisVectorPoint where
  session_id : String
  pseudo_user_id : String
  channel : String
  intent_vector : List ℝ
  frustration_vector : List ℝ
  product_vector : List ℝ
  timestamp : ℤ

/-- `QdrantMemoryPoint`. -/
structure QdrantMemoryPoint where
  pseudo_user_id : String
  summary : String
  intent_vector : List ℝ
  tone_vector : List ℝ
  product_vector : List ℝ
  entities : List String
  last_seen : ℤ

/- ---------------------------------------------------------------------
Urgency prediction: `src/lib/services/urgency-predictor.ts`
--------------------------------------------------------------------- -/

/-- Urgency level `low | medium | high | critical`. -/
inductive UrgencyLevel where
  | low
  | medium
  | high
  | critical
  deriving DecidableEq, Repr

/-- The `factors` record of `UrgencyScore`. -/
structure UrgencyFactors where
  frustration : ℝ
  repetition : ℝ
  time_sensitivity : ℝ
  escalation_keywords : ℝ

/-- `UrgencyScore`. -/
structure UrgencyScore where
  score : ℝ
  level : UrgencyLevel
  factors : UrgencyFactors

/-- `calculateFrustrationUrgency` (lines 477–481): scaled magnitude of the
frustration vector, `min(1, (sqrt(Σ v_i²) / length) * 2)`. -/
noncomputable def calculateFrustrationUrgency (frustrationVector : List ℝ) : ℝ :=
  let magnitude := Real.sqrt (frustrationVector.foldl (fun sum val => sum + val * val) 0) /
    frustrationVector.length
  min 1 (magnitude * 2)

/-- `isSimilarMessage` (lines 508–514): strictly more than 30% word
overlap (Jaccard on lowercased whitespace-separated word sets). -/
def isSimilarMessage (text1 text2 : String) : Bool :=
  let words1 := wordSet text1
  let words2 := wordSet text2
  let intersection := words1 ∩ words2
  let union := words1 ∪ words2
  decide (0 < union.card) && decide ((3 / 10 : ℚ) < (intersection.card : ℚ) / (union.card : ℚ))

/-- `calculateRepetitionUrgency` (lines 487–503): capped contributions
from similar same-session user messages and similar long-term
summaries. -/
noncomputable def calculateRepetitionUrgency (currentMessage : Message)
    (shortTermMemory : Option RedisSessionData) (longTermMemories : List QdrantMemoryPoint) : ℝ :=
  let shortContribution : ℝ :=
    match shortTermMemory with
    | some mem =>
      if 1 < mem.messages.length then
        let similarMessages := (mem.messages.filter fun msg =>
          msg.role == MessageRole.user && isSimilarMessage msg.text currentMessage.text).length
        min 0.5 (similarMessages * 0.15)
      else 0
    | none => 0
  let longContribution : ℝ :=
    if 0 < longTermMemories.length then
      let similarHistorical := (longTermMemories.filter fun mem =>
        isSimilarMessage mem.summary currentMessage.text).length
      min 0.5 (similarHistorical * 0.1)
    else 0
  min 1 (shortContribution + longContribution)

/-- The time-sensitive keyword list of `calculateTimeSensitivityUrgency`. -/
def timeSensitiveKeywords : List String :=
  ["urgent", "asap", "immediately", "now", "today", "deadline", "expired", "overdue", "late",
   "emergency", "critical", "important"]

/-- The number of time-sensitive keywords occurring in the lowercased
text. -/
def timeSensitiveCount (text : String) : ℕ :=
  (timeSensitiveKeywords.filter fun keyword => jsIncludes (lowerStr text) keyword).length

/-- `calculateTimeSensitivityUrgency` (lines 519–524). -/
noncomputable def calculateTimeSensitivityUrgency (text : String) : ℝ :=
  min 1 (timeSensitiveCount text * 0.2)

/-- The escalation keyword list of `calculateEscalationKeywordUrgency`. -/
def escalationKeywords : List String :=
  ["manager", "supervisor", "escalate", "complaint", "unacceptable", "terrible", "worst",
   "cancel", "refund", "legal", "sue", "lawyer"]

/-- The number of escalation keywords occurring in the lowercased text. -/
def escalationCount (text : String) : ℕ :=
  (escalationKeywords.filter fun keyword => jsIncludes (lowerStr text) keyword).length

/-- `calculateEscalationKeywordUrgency` (lines 529–534):
`min(1.0, matches * 0.25)`. -/
noncomputable def calculateEscalationKeywordUrgency (text : String) : ℝ :=
  min 1 (escalationCount text * 0.25)

/-- The level thresholds `URGENCY_THRESHOLDS` applied by the `if` chain of
lines 453–462. -/
noncomputable def urgencyLevelOf (urgencyScore : ℝ) : UrgencyLevel :=
  if 0.85 ≤ urgencyScore then UrgencyLevel.critical
  else if 0.6 ≤ urgencyScore then UrgencyLevel.high
  else if 0.3 ≤ urgencyScore then UrgencyLevel.medium
  else UrgencyLevel.low

/-- `calculateUrgency` (lines 441–471): the four factors, their weighted
sum, the level from the raw score, and the clamped score. -/
noncomputable def calculateUrgency (currentMessage : Message) (embeddings : MultiVectorEmbedding)
    (shortTermMemory : Option RedisSessionData) (longTermMemories : List QdrantMemoryPoint) :
    UrgencyScore :=
  let factors : UrgencyFactors :=
    ⟨calculateFrustrationUrgency embeddings.frustration_vector,
     calculateRepetitionUrgency currentMessage shortTermMemory longTermMemories,
     calculateTimeSensitivityUrgency currentMessage.text,
     calculateEscalationKeywordUrgency currentMessage.text⟩
  let urgencyScore := factors.frustration * 0.35 + factors.repetition * 0.3 +
    factors.time_sensitivity * 0.2 + factors.escalation_keywords * 0.15
  ⟨min 1 (max 0 urgencyScore), urgencyLevelOf urgencyScore, factors⟩

/- ---------------------------------------------------------------------
Problem extraction: `src/lib/services/problem-extractor.ts`
--------------------------------------------------------------------- -/

/-- The critical keyword list of `calculateCriticality` (line 203). -/
def criticalKeywords : List String := ["refund", "cancel", "legal", "complaint", "unacceptable"]

/-- Is some critical keyword present in the lowercased message text
(line 204)? -/
def hasCriticalKeyword (text : String) : Bool :=
  criticalKeywords.any fun keyword => jsIncludes (lowerStr text) keyword

/-- `calculateCriticality` (lines 189–209): start from the urgency score
and add capped bonuses for not-agent-solvable, available history and
critical keywords, clamping after every step. -/
noncomputable def calculateCriticality (message : Message) (urgency : UrgencyScore)
    (canAgentSolve : Bool) (longTermMemories : List QdrantMemoryPoint) : ℝ :=
  let c0 := urgency.score
  let c1 := if canAgentSolve then c0 else min 1 (c0 + 0.3)
  let c2 := if 0 < longTermMemories.length then min 1 (c1 + 0.2) else c1
  let c3 := if hasCriticalKeyword message.text then min 1 (c2 + 0.2) else c2
  min 1 c3

/-- `isSimilarProblem` (lines 233–239): strictly more than 40% word
overlap. -/
def isSimilarProblem (text1 text2 : String) : Bool :=
  let words1 := wordSet text1
  let words2 := wordSet text2
  let intersection := words1 ∩ words2
  let union := words1 ∪ words2
  decide (0 < union.card) && decide ((4 / 10 : ℚ) < (intersection.card : ℚ) / (union.card : ℚ))

/- ---------------------------------------------------------------------
Storage wrappers: `src/lib/services/memory-storage.ts`
--------------------------------------------------------------------- -/

/-- The `storageType` tag of `StorageError`
(`src/lib/utils/errors.ts`). -/
inductive StorageType where
  | redis
  | qdrant
  | mongodb
  deriving DecidableEq, Repr

/-- `StorageError`. -/
structure StorageError where
  message : String
  storageType : StorageType
  deriving DecidableEq, Repr

/-- The raw result of one underlying store call: either the value or the
thrown error's message. -/
abbrev StoreResult (α : Type) := Except String α

/-- `storeShortTermMemory` (lines 20–44): on an underlying Redis failure,
rethrow as a `StorageError` tagged `redis`. -/
def storeShortTermMemory (setResult : StoreResult Unit) : Except StorageError Unit :=
  match setResult with
  | Except.ok _ => Except.ok ()
  | Except.error e => Except.error ⟨"Failed to store short-term memory: " ++ e, StorageType.redis⟩

/-- `storeShortTermVector` (lines 51–84): on an underlying Upstash Vector
failure, rethrow as a `StorageError` tagged `redis`. -/
def storeShortTermVector (upsertResult : StoreResult Unit) : Except StorageError Unit :=
  match upsertResult with
  | Except.ok _ => Except.ok ()
  | Except.error e => Except.error ⟨"Failed to store short-term vector: " ++ e, StorageType.redis⟩

/-- `storeLongTermMemory` (lines 92–134): on an underlying Qdrant failure,
rethrow as a `StorageError` tagged `qdrant`. -/
def storeLongTermMemory (upsertResult : StoreResult Unit) : Except StorageError Unit :=
  match upsertResult with
  | Except.ok _ => Except.ok ()
  | Except.error e => Except.error ⟨"Failed to store long-term memory: " ++ e, StorageType.qdrant⟩

/-- `retrieveShortTermMemory` (lines 139–154): the Redis `get` plus JSON
parse, absent key giving `null`; any failure is caught and returns
`null`. -/
def retrieveShortTermMemory (getResult : StoreResult (Option RedisSessionData)) :
    Option RedisSessionData :=
  match getResult with
  | Except.ok data => data
  | Except.error _ => none

/-- One raw result row of the Upstash Vector query in
`retrieveRelevantVectors` (the metadata read back at lines 177–184). -/
structure VectorQueryRow where
  session_id : String
  pseudo_user_id : String
  channel : String
  frustration_vector : List ℝ
  product_vector : List ℝ
  timestamp : ℤ

/-- `retrieveRelevantVectors` (lines 161–212): map the query rows to
`RedisVectorPoint`s (reusing the query vector as `intent_vector`), sort
by timestamp descending; any failure is caught and returns `[]`. -/
def retrieveRelevantVectors (queryVector : List ℝ)
    (queryResult : StoreResult (List VectorQueryRow)) : List RedisVectorPoint :=
  match queryResult with
  | Except.ok results =>
    let vectors := results.map fun r =>
      ({ session_id := r.session_id, pseudo_user_id := r.pseudo_user_id, channel := r.channel,
         intent_vector := queryVector, frustration_vector := r.frustration_vector,
         product_vector := r.product_vector, timestamp := r.timestamp } : RedisVectorPoint)
    vectors.mergeSort fun a b => b.timestamp ≤ a.timestamp
  | Except.error _ => []

/-- One raw result row of the Qdrant search in `retrieveLongTermMemory`
(the payload read back at lines 234–242). -/
structure QdrantQueryRow where
  pseudo_user_id : String
  summary : String
  tone_vector : List ℝ
  product_vector : List ℝ
  entities : List String
  last_seen : ℤ

/-- `retrieveLongTermMemory` (lines 219–256): map the payloads to
`QdrantMemoryPoint`s (reusing the query vector as `intent_vector`); any
failure is caught and returns `[]`. -/
def retrieveLongTermMemory (queryVector : List ℝ)
    (searchResult : StoreResult (List QdrantQueryRow)) : List QdrantMemoryPoint :=
  match searchResult with
  | Except.ok results =>
    results.map fun r =>
      ({ pseudo_user_id := r.pseudo_user_id, summary := r.summary, intent_vector := queryVector,
         tone_vector := r.tone_vector, product_vector := r.product_vector,
         entities := r.entities, last_seen := r.last_seen } : QdrantMemoryPoint)
  | Except.error _ => []

/- ---------------------------------------------------------------------
Read-phase orchestration: `src/app/api/memory/store/route.ts`
(lines 70–76) and `src/lib/services/memory-retrieval.ts` (lines 27–37)
--------------------------------------------------------------------- -/

/-- The three stage-3/4 reads. -/
inductive ReadOp where
  | kvGet
  | shortVectorQuery
  | longVectorQuery
  deriving DecidableEq, Repr

/-- An I/O event: a read is issued (its promise is created, the request
goes on the wire) or completes (its promise settles). -/
inductive ReadEvent where
  | issue (op : ReadOp)
  | complete (op : ReadOp)
  deriving DecidableEq, Repr

/-- The async shape of a read phase: `awaitRead op k` is
`const x = await read(op); k` (issue, then block until completion before
anything else runs), and `parAll ops k` is
`await Promise.all([read(op1), …])` (all promises are created first, then
all are awaited). -/
inductive ReadPhase where
  | awaitRead (op : ReadOp) (k : ReadPhase)
  | parAll (ops : List ReadOp) (k : ReadPhase)
  | done

/-- The event trace of a read phase. -/
def readTrace : ReadPhase → List ReadEvent
  | ReadPhase.awaitRead op k => ReadEvent.issue op :: ReadEvent.complete op :: readTrace k
  | ReadPhase.parAll ops k =>
    ops.map ReadEvent.issue ++ ops.map ReadEvent.complete ++ readTrace k
  | ReadPhase.done => []

/-- Is an event an issue? -/
def isIssueEvent : ReadEvent → Bool
  | ReadEvent.issue _ => true
  | ReadEvent.complete _ => false

/-- All reads of a trace are issued before any of them completes, i.e.
the reads are started without sequential dependency on one another. -/
def issuedWithoutSequentialDependency (t : List ReadEvent) : Bool :=
  (t.takeWhile isIssueEvent).length == (t.filter isIssueEvent).length

/-- The stage-3/4 read phase of the store pipeline, translated from
`src/app/api/memory/store/route.ts` lines 70–76:
`await retrieveShortTermMemory(sessionId)`, then
`await retrieveRelevantVectors(queryVector, 10)`, then
`await retrieveLongTermMemory(queryVector, 10)` — three sequential
awaits. -/
def storeRouteReadPhase : ReadPhase :=
  ReadPhase.awaitRead ReadOp.kvGet
    (ReadPhase.awaitRead ReadOp.shortVectorQuery
      (ReadPhase.awaitRead ReadOp.longVectorQuery ReadPhase.done))

/-- The read phase of `retrieveUnifiedMemory`, translated from
`src/lib/services/memory-retrieval.ts` lines 27–37: the three promises
are created first and then awaited together with `Promise.all`. -/
def retrieveUnifiedReadPhase : ReadPhase :=
  ReadPhase.parAll [ReadOp.kvGet, ReadOp.shortVectorQuery, ReadOp.longVectorQuery] ReadPhase.done

/- ---------------------------------------------------------------------
Theorems
--------------------------------------------------------------------- -/

/-- C10: Store-read operations never throw past their own boundary: when
the underlying store fails, retrieving the short-term session record
returns null and retrieving short-term or long-term vector candidates
returns an empty list.  Store-write operations always propagate failure:
when the underlying store fails, each write throws a `StorageError`
tagged with which store failed (`redis` for both short-term writes,
`qdrant` for the long-term write). -/
theorem claim10_read_write_error_policy :
    ∀ (e : String) (queryVector : List ℝ),
      retrieveShortTermMemory (Except.error e) = none ∧
      retrieveRelevantVectors queryVector (Except.error e) = [] ∧
      retrieveLongTermMemory queryVector (Except.error e) = [] ∧
      storeShortTermMemory (Except.error e) =
        Except.error ⟨"Failed to store short-term memory: " ++ e, StorageType.redis⟩ ∧
      storeShortTermVector (Except.error e) =
        Except.error ⟨"Failed to store short-term vector: " ++ e, StorageType.redis⟩ ∧
      storeLongTermMemory (Except.error e) =
        Except.error ⟨"Failed to store long-term memory: " ++ e, StorageType.qdrant⟩ := by
  intro e queryVector
  refine ⟨rfl, rfl, rfl, rfl, rfl, rfl⟩

/-- C2: the claim asserts that the three stage-3/4 reads of one
store-pipeline invocation are issued concurrently (at minimum without
sequential dependency) and awaited together.  In the source, the store
route (`route.ts` lines 71–76) awaits each read before issuing the next,
so its trace interleaves issue/complete strictly sequentially, while the
retrieval service (`memory-retrieval.ts` lines 28–37) creates all three
promises before awaiting `Promise.all` — the claimed concurrent shape.
This theorem evaluates both traces, exhibiting the divergence. -/
theorem claim2_store_reads_sequential_bug :
    readTrace storeRouteReadPhase =
      [ReadEvent.issue ReadOp.kvGet, ReadEvent.complete ReadOp.kvGet,
       ReadEvent.issue ReadOp.shortVectorQuery, ReadEvent.complete ReadOp.shortVectorQuery,
       ReadEvent.issue ReadOp.longVectorQuery, ReadEvent.complete ReadOp.longVectorQuery] ∧
    issuedWithoutSequentialDependency (readTrace storeRouteReadPhase) = false ∧
    issuedWithoutSequentialDependency (readTrace retrieveUnifiedReadPhase) = true := by
  refine ⟨rfl, by decide, by decide⟩

/-- Every `Math.random`-drawn character is determined by the sample: the
all-zero stream yields `'0'` everywhere. -/
lemma randChar_zero_stream (k : ℕ) : randChar (fun _ => (0 : ℚ)) k = '0' := by
  simp [randChar, randIndex]
  decide

/-- A segment drawn from the all-zero stream is a run of `'0'`s. -/
lemma genSegment_zero_stream (start len : ℕ) :
    genSegment (fun _ => (0 : ℚ)) start len = List.replicate len '0' := by
  simp [genSegment, randChar_zero_stream, List.map_const']

/-- The id minted from the all-zero stream, at any offset. -/
lemma generatePseudoUserId_zero_stream (start : ℕ) :
    generatePseudoUserId (fun _ => (0 : ℚ)) start = "00000000-0000-0000-0000-000000000000" := by
  simp only [generatePseudoUserId, genSegment_zero_stream]
  decide

/-- C5: the claim says the minted pseudo_user_id comes from a
cryptographically strong random source.  The source draws every character
from `Math.random`, a seeded general-purpose PRNG: the id is a pure
function of the PRNG's output samples, so whoever knows (or can predict)
the `Math.random` state knows the "non-reversible security token"
exactly.  Witnessed here on the legal all-zero sample stream, for both
`generatePseudoUserId` and `linkIdentity` with no historical
candidates. -/
theorem claim5_pseudo_id_prng_predictable :
    (∀ k : ℕ, (0 : ℚ) ≤ (fun _ => (0 : ℚ)) k ∧ (fun _ => (0 : ℚ)) k < 1) ∧
    generatePseudoUserId (fun _ => (0 : ℚ)) 0 = "00000000-0000-0000-0000-000000000000" ∧
    (∀ emb : MultiVectorEmbedding,
      linkIdentity (fun _ => (0 : ℚ)) 0 emb none none [] [] none =
        "00000000-0000-0000-0000-000000000000") := by
  refine ⟨fun k => ⟨le_refl 0, by norm_num⟩, generatePseudoUserId_zero_stream 0, fun emb => ?_⟩
  simpa [linkIdentity] using generatePseudoUserId_zero_stream 0

/-- C6 counterexample: on the legal all-zero `Math.random` stream, two
successive resolutions with no historical candidates (the second call
consuming the 32 samples after the first) return the same id, refuting
"two successive calls never return the same id". -/
theorem claim6_successive_ids_can_collide :
    (∀ k : ℕ, (0 : ℚ) ≤ (fun _ => (0 : ℚ)) k ∧ (fun _ => (0 : ℚ)) k < 1) ∧
    (∀ emb : MultiVectorEmbedding,
      linkIdentity (fun _ => (0 : ℚ)) 0 emb none none [] [] none =
        linkIdentity (fun _ => (0 : ℚ)) 32 emb none none [] [] none) := by
  refine ⟨fun k => ⟨le_refl 0, by norm_num⟩, fun emb => ?_⟩
  simp [linkIdentity, generatePseudoUserId_zero_stream]

/-- No drawn character is a hyphen, whatever the stream. -/
lemma randChar_ne_dash (rand : ℕ → ℚ) (k : ℕ) : randChar rand k ≠ '-' := by
  unfold randChar
  rcases lt_or_le (randIndex rand k) 16 with h | h
  · revert h
    have : ∀ i < 16, hexChars.getD i '?' ≠ '-' := by decide
    exact fun h => this _ h
  · rw [List.getD_eq_default]
    · decide
    · simpa [hexChars] using h

/-- With samples in `[0, 1)`, the drawn index is within the 16-character
alphabet. -/
lemma randIndex_lt_16 (rand : ℕ → ℚ) (k : ℕ) (h0 : 0 ≤ rand k) (h1 : rand k < 1) :
    randIndex rand k < 16 := by
  unfold randIndex
  have hf : ⌊rand k * 16⌋ < (16 : ℤ) := by
    rw [Int.floor_lt]
    push_cast
    nlinarith
  omega

/-- With samples in `[0, 1)`, every drawn character is an uppercase hex
digit. -/
lemma randChar_hex (rand : ℕ → ℚ) (k : ℕ) (h0 : 0 ≤ rand k) (h1 : rand k < 1) :
    isUpperHexChar (randChar rand k) = true := by
  have hlt := randIndex_lt_16 rand k h0 h1
  unfold randChar
  revert hlt
  have : ∀ i < 16, isUpperHexChar (hexChars.getD i '?') = true := by decide
  exact fun hlt => this _ hlt

/-- A generated segment has the requested length. -/
lemma genSegment_length (rand : ℕ → ℚ) (start len : ℕ) :
    (genSegment rand start len).length = len := by
  simp [genSegment]

/-- C6 (amended): whenever identity resolution is called with no
historical candidates (an absent or empty candidate list), it returns the
freshly minted `generatePseudoUserId` value, which always matches the
five-group 8-4-4-4-12 uppercase-hex format provided the `Math.random`
samples lie in `[0, 1)`.  (Distinctness of successive ids is *not*
guaranteed — see the counterexample — it holds only with overwhelming
probability.) -/
theorem claim6_amended_mint_format (rand : ℕ → ℚ) (start : ℕ)
    (hrand : ∀ n, 0 ≤ rand n ∧ rand n < 1) :
    (∀ (emb : MultiVectorEmbedding) (md hmd : Option SessionMetadata)
        (cur hist : List TextMsg),
      linkIdentity rand start emb md none cur hist hmd = generatePseudoUserId rand start ∧
      linkIdentity rand start emb md (some []) cur hist hmd = generatePseudoUserId rand start) ∧
    pseudoIdFormat (generatePseudoUserId rand start) = true := by
  constructor
  · exact fun emb md hmd cur hist => ⟨rfl, rfl⟩
  · have hdata : (generatePseudoUserId rand start).data =
        List.intercalate ['-']
          [genSegment rand start 8, genSegment rand (start + 8) 4,
           genSegment rand (start + 12) 4, genSegment rand (start + 16) 4,
           genSegment rand (start + 20) 12] := rfl
    have hnodash : ∀ l ∈
        [genSegment rand start 8, genSegment rand (start + 8) 4,
         genSegment rand (start + 12) 4, genSegment rand (start + 16) 4,
         genSegment rand (start + 20) 12], '-' ∉ l := by
      intro l hl hdash
      simp only [List.mem_cons, List.mem_singleton] at hl
      have : ∃ s n, l = genSegment rand s n := by
        rcases hl with h | h | h | h | h | h
        all_goals first
          | (exact ⟨_, _, h⟩)
          | (cases h)
      obtain ⟨s, n, rfl⟩ := this
      simp only [genSegment, List.mem_map] at hdash
      obtain ⟨i, _, hi⟩ := hdash
      exact randChar_ne_dash rand (s + i) hi
    have hsplit : (generatePseudoUserId rand start).data.splitOn '-' =
        [genSegment rand start 8, genSegment rand (start + 8) 4,
         genSegment rand (start + 12) 4, genSegment rand (start + 16) 4,
         genSegment rand (start + 20) 12] := by
      rw [hdata]
      exact List.splitOn_intercalate _ '-' hnodash (by simp)
    unfold pseudoIdFormat
    rw [hsplit]
    have hallhex : ∀ (s n : ℕ), (genSegment rand s n).all isUpperHexChar = true := by
      intro s n
      rw [List.all_eq_true]
      intro c hc
      simp only [genSegment, List.mem_map] at hc
      obtain ⟨i, _, hi⟩ := hc
      rw [← hi]
      exact randChar_hex rand (s + i) (hrand (s + i)).1 (hrand (s + i)).2
    simp [genSegment_length, hallhex]

/-- Closed witness for the C6 amended theorem at the constant stream
`1/2`: the hypotheses are discharged numerically and the format check is
inherited from the theorem. -/
theorem claim6_amended_mint_format_witness :
    (∀ n : ℕ, (0 : ℚ) ≤ (fun _ => (1 / 2 : ℚ)) n ∧ (fun _ => (1 / 2 : ℚ)) n < 1) ∧
    pseudoIdFormat (generatePseudoUserId (fun _ => (1 / 2 : ℚ)) 0) = true := by
  have hrand : ∀ n : ℕ, (0 : ℚ) ≤ (fun _ => (1 / 2 : ℚ)) n ∧ (fun _ => (1 / 2 : ℚ)) n < 1 := by
    intro n
    constructor <;> norm_num
  exact ⟨hrand, (claim6_amended_mint_format (fun _ => (1 / 2 : ℚ)) 0 hrand).2⟩

/-- Membership in an `updateFirst` image: every element either was in the
original list or is the image under `f` of an element of it. -/
lemma mem_updateFirst {q : α → Bool} {f : α → α} {l : List α} {y : α}
    (hy : y ∈ updateFirst q f l) : y ∈ l ∨ ∃ x ∈ l, q x = true ∧ y = f x := by
  induction l with
  | nil => cases hy
  | cons x xs ih =>
    unfold updateFirst at hy
    by_cases hq : q x
    · rw [if_pos hq] at hy
      rcases List.mem_cons.mp hy with h | h
      · exact Or.inr ⟨x, List.mem_cons_self x xs, hq, h⟩
      · exact Or.inl (List.mem_cons_of_mem x h)
    · rw [if_neg hq] at hy
      rcases List.mem_cons.mp hy with h | h
      · exact Or.inl (h ▸ List.mem_cons_self x xs)
      · rcases ih h with h' | ⟨z, hz, hqz, hyz⟩
        · exact Or.inl (List.mem_cons_of_mem x h')
        · exact Or.inr ⟨z, List.mem_cons_of_mem x hz, hqz, hyz⟩

/-- `updateFirst` with a count-preserving update does not change a
`countP`. -/
lemma countP_updateFirst {p q : α → Bool} {f : α → α} (hf : ∀ x, p (f x) = p x)
    (l : List α) : (updateFirst q f l).countP p = l.countP p := by
  induction l with
  | nil => rfl
  | cons x xs ih =>
    unfold updateFirst
    by_cases hq : q x
    · simp [if_pos hq, List.countP_cons, hf]
    · simp [if_neg hq, List.countP_cons, ih]

/-- The confidence-raising update of line 363 does not touch the channel
or the hashed id, hence preserves `sessionMatches`. -/
lemma sessionMatches_raise (chan hsh : String) (confidence : ℚ) (s : LinkedSession) :
    sessionMatches chan hsh
      (if confidence > s.confidence then { s with confidence := confidence } else s) =
    sessionMatches chan hsh s := by
  by_cases hc : confidence > s.confidence <;> simp [hc, sessionMatches]

/-- `updateLinkedSessions` keeps every per-pair link count at most one. -/
lemma pairCount_updateLinkedSessions_le_one (ch hsh chan hsh' : String) (confidence : ℚ)
    (ls : List LinkedSession) (hls : pairCount chan hsh' ls ≤ 1) :
    pairCount chan hsh' (updateLinkedSessions ch hsh confidence ls) ≤ 1 := by
  unfold updateLinkedSessions
  by_cases hany : ls.any (sessionMatches ch hsh)
  · rw [if_pos hany]
    unfold pairCount
    rw [countP_updateFirst (sessionMatches_raise chan hsh' confidence)]
    exact hls
  · rw [if_neg hany]
    unfold pairCount at hls ⊢
    rw [List.countP_append]
    by_cases hmatch : sessionMatches chan hsh' ⟨ch, hsh, confidence⟩
    · have hch : ch = chan ∧ hsh = hsh' := by
        simpa [sessionMatches] using hmatch
      have hzero : ls.countP (sessionMatches chan hsh') = 0 := by
        rw [List.countP_eq_zero]
        intro s hs
        rcases hch with ⟨h1, h2⟩
        subst h1; subst h2
        exact fun hcon => hany (List.any_eq_true.mpr ⟨s, hs, hcon⟩)
      simp [hzero, hmatch]
    · simp [hmatch]
      exact hls

/-- Look up an index in an `updateFirst` image: the slot holds either the
original element or its image under `f`. -/
lemma getElem?_updateFirst (q : α → Bool) (f : α → α) (l : List α) (i : ℕ) :
    (updateFirst q f l)[i]? = l[i]? ∨
      ∃ x, l[i]? = some x ∧ q x = true ∧ (updateFirst q f l)[i]? = some (f x) := by
  induction l generalizing i with
  | nil => exact Or.inl rfl
  | cons x xs ih =>
    unfold updateFirst
    by_cases hq : q x
    · rw [if_pos hq]
      cases i with
      | zero => exact Or.inr ⟨x, by simp, hq, by simp⟩
      | succ j => exact Or.inl (by simp)
    · rw [if_neg hq]
      cases i with
      | zero => exact Or.inl (by simp)
      | succ j =>
        rcases ih j with h | ⟨z, hz, hqz, hz'⟩
        · exact Or.inl (by simpa using h)
        · exact Or.inr ⟨z, by simpa using hz, hqz, by simpa using hz'⟩

/-- `updateLinkedSessions` never lowers a stored confidence, and never
moves or retags a link. -/
lemma updateLinkedSessions_monotone (ch hsh : String) (confidence : ℚ)
    (ls : List LinkedSession) (j : ℕ) (s : LinkedSession) (hj : ls[j]? = some s) :
    ∃ s', (updateLinkedSessions ch hsh confidence ls)[j]? = some s' ∧
      s'.channel = s.channel ∧ s'.channel_user_id = s.channel_user_id ∧
      s.confidence ≤ s'.confidence := by
  unfold updateLinkedSessions
  by_cases hany : ls.any (sessionMatches ch hsh)
  · rw [if_pos hany]
    rcases getElem?_updateFirst (sessionMatches ch hsh)
        (fun s => if confidence > s.confidence then { s with confidence := confidence } else s)
        ls j with h | ⟨x, hx, _, hx'⟩
    · exact ⟨s, h.trans hj, rfl, rfl, le_refl _⟩
    · rw [hj] at hx
      cases hx
      by_cases hc : confidence > s.confidence

      · exact ⟨_, hx', by simp [hc], by simp [hc], by simp [hc]; exact le_of_lt hc⟩
      · exact ⟨_, hx', by simp [hc], by simp [hc], by simp [hc]⟩
  · rw [if_neg hany]
    have hjlt : j < ls.length := List.getElem?_eq_some_iff.mp hj |>.1
    refine ⟨s, ?_, rfl, rfl, le_refl _⟩
    rw [List.getElem?_append_left hjlt]
    exact hj

/-- C3 counterexample: the link operation does not preserve the global
at-most-one-entry invariant.  Starting from the empty identity map (which
satisfies it), linking the pair `("web", "u")` under pseudo id `"P1"` and
then the same pair under a different pseudo id `"P2"` (confidences 0.7
then 0.9, deterministic hashing modelled by `id`) leaves the pair in two
entries: the operation looks up the map by pseudo id only and never
checks whether the pair already lives under another entry. -/
theorem claim3_pair_not_globally_unique :
    pairUnique ([] : IdentityMap) ∧
    ¬ pairUnique
        (linkIdentityToMap id (linkIdentityToMap id [] "P1" "web" "u" (7 / 10) 0)
          "P2" "web" "u" (9 / 10) 1) := by
  constructor
  · intro channel hashed
    simp [entriesWithPair]
  · intro h
    have h2 := h "web" "u"
    revert h2
    decide

/-- C3 (amended): the link operation always preserves the per-entry form
of the invariant — within any single entry a `(channel, hashed id)` pair
occupies at most one `linked_sessions` slot — and never lowers any stored
confidence (a link's confidence is replaced only by a strictly higher
one, and links are never retagged or dropped).  The global
at-most-one-entry invariant is guaranteed only when the pair is relinked
under the pseudo id already holding it; in particular linking the same
`(channel, raw id)` pair twice under the same pseudo id with confidences
0.7 then 0.9 leaves exactly one linked_sessions entry for the pair, with
confidence 0.9. -/
theorem claim3_amended_link_invariants (hashFn : String → String) (st : IdentityMap)
    (pseudoUserId channel channelUserId : String) (confidence : ℚ) (now : ℕ)
    (hinv : ∀ e ∈ st, ∀ chan hsh, pairCount chan hsh e.linked_sessions ≤ 1) :
    (∀ e ∈ linkIdentityToMap hashFn st pseudoUserId channel channelUserId confidence now,
      ∀ chan hsh, pairCount chan hsh e.linked_sessions ≤ 1) ∧
    (∀ (i j : ℕ) (e : IdentityMapEntry) (s : LinkedSession),
      st[i]? = some e → e.linked_sessions[j]? = some s →
      ∃ e' s',
        (linkIdentityToMap hashFn st pseudoUserId channel channelUserId confidence now)[i]? =
            some e' ∧
          e'.pseudo_user_id = e.pseudo_user_id ∧ e'.linked_sessions[j]? = some s' ∧
          s'.channel = s.channel ∧ s'.channel_user_id = s.channel_user_id ∧
          s.confidence ≤ s'.confidence) ∧
    (∀ t1 t2 : ℕ,
      linkIdentityToMap hashFn (linkIdentityToMap hashFn [] pseudoUserId channel channelUserId
          (7 / 10) t1) pseudoUserId channel channelUserId (9 / 10) t2 =
        [⟨pseudoUserId, [⟨channel, hashFn channelUserId, 9 / 10⟩], t2⟩]) := by
  refine ⟨?_, ?_, ?_⟩
  · intro e he chan hsh
    unfold linkIdentityToMap at he
    by_cases hany : st.any fun e => e.pseudo_user_id == pseudoUserId
    · rw [if_pos hany] at he
      rcases mem_updateFirst he with h | ⟨x, hx, _, rfl⟩
      · exact hinv e h chan hsh
      · exact pairCount_updateLinkedSessions_le_one _ _ _ _ _ _ (hinv x hx chan hsh)
    · rw [if_neg hany] at he
      rcases List.mem_append.mp he with h | h
      · exact hinv e h chan hsh
      · rcases List.mem_singleton.mp h with rfl
        exact List.countP_le_length _
  · intro i j e s hi hj
    unfold linkIdentityToMap
    by_cases hany : st.any fun e => e.pseudo_user_id == pseudoUserId
    · rw [if_pos hany]
      rcases getElem?_updateFirst (fun e => e.pseudo_user_id == pseudoUserId)
          (fun e =>
            { e with
              linked_sessions := updateLinkedSessions channel (hashFn channelUserId) confidence
                e.linked_sessions,
              updated_at := now })
          st i with h | ⟨x, hx, _, hx'⟩
      · exact ⟨e, s, h.trans hi, rfl, hj, rfl, rfl, le_refl _⟩
      · rw [hi] at hx
        cases hx
        obtain ⟨s', hs', h1, h2, h3⟩ :=
          updateLinkedSessions_monotone channel (hashFn channelUserId) confidence
            e.linked_sessions j s hj
        exact ⟨_, s', hx', rfl, hs', h1, h2, h3⟩
    · rw [if_neg hany]
      have hilt : i < st.length := List.getElem?_eq_some_iff.mp hi |>.1
      refine ⟨e, s, ?_, rfl, hj, rfl, rfl, le_refl _⟩
      rw [List.getElem?_append_left hilt]
      exact hi
  · intro t1 t2
    simp [linkIdentityToMap, updateLinkedSessions, updateFirst, sessionMatches]
    norm_num

/-- Closed witness for the C3 amended theorem: instantiated on a concrete
one-entry map satisfying the per-entry invariant, for the concrete
same-pseudo-id relink sequence. -/
theorem claim3_amended_link_invariants_witness :
    (∀ e ∈ ([⟨"P", [⟨"web", "u", 1 / 2⟩], 0⟩] : IdentityMap),
      ∀ chan hsh, pairCount chan hsh e.linked_sessions ≤ 1) ∧
    (∀ t1 t2 : ℕ,
      linkIdentityToMap id (linkIdentityToMap id [] "P" "web" "u" (7 / 10) t1)
          "P" "web" "u" (9 / 10) t2 =
        [⟨"P", [⟨"web", "u", 9 / 10⟩], t2⟩]) := by
  have hinv : ∀ e ∈ ([⟨"P", [⟨"web", "u", 1 / 2⟩], 0⟩] : IdentityMap),
      ∀ chan hsh, pairCount chan hsh e.linked_sessions ≤ 1 := by
    intro e he chan hsh
    rcases List.mem_singleton.mp he with rfl
    exact List.countP_le_length _
  exact ⟨hinv,
    (claim3_amended_link_invariants id [⟨"P", [⟨"web", "u", 1 / 2⟩], 0⟩] "P" "web" "u" (9 / 10) 0
      hinv).2.2⟩

set_option maxHeartbeats 1600000 in
/-- C4: for every extracted problem, the criticality score equals the
urgency score, plus 0.3 if the problem is judged not agent-solvable, plus
0.2 if similar history exists (the retrieved long-term history is
non-empty), plus 0.2 if critical keywords are present in the message
text, with the result clamped to `[0, 1]`.  The urgency score handed in
by `calculateUrgency` is already non-negative, which is the hypothesis
under which the source's stepwise clamping agrees with a single final
clamp. -/
theorem claim4_criticality_formula (message : Message) (urgency : UrgencyScore)
    (canAgentSolve : Bool) (longTermMemories : List QdrantMemoryPoint)
    (h : 0 ≤ urgency.score) :
    calculateCriticality message urgency canAgentSolve longTermMemories =
      max 0 (min 1 (urgency.score + (if canAgentSolve then 0 else 0.3) +
        (if 0 < longTermMemories.length then 0.2 else 0) +
        (if hasCriticalKeyword message.text then 0.2 else 0))) := by
  unfold calculateCriticality
  by_cases h1 : canAgentSolve <;> by_cases h2 : 0 < longTermMemories.length <;>
    by_cases h3 : hasCriticalKeyword message.text <;>
    simp only [h1, h2, h3, if_true, if_false, Bool.false_eq_true, ite_true, ite_false] <;>
    (simp only [min_def, max_def]; split_ifs <;> linarith)

/-- Closed witness for the C4 criticality formula at a concrete input
(urgency score 0.5, not agent-solvable, no history, message containing
the critical keyword `"refund"`). -/
theorem claim4_criticality_formula_witness :
    (0 : ℝ) ≤ (0.5 : ℝ) ∧
    calculateCriticality ⟨0, MessageRole.user, "I want a refund", "s"⟩
        ⟨0.5, UrgencyLevel.medium, ⟨0, 0, 0, 0⟩⟩ false [] =
      max 0 (min 1 ((0.5 : ℝ) + (if false then 0 else 0.3) +
        (if 0 < ([] : List QdrantMemoryPoint).length then 0.2 else 0) +
        (if hasCriticalKeyword "I want a refund" then 0.2 else 0))) :=
  ⟨by norm_num,
   claim4_criticality_formula ⟨0, MessageRole.user, "I want a refund", "s"⟩
     ⟨0.5, UrgencyLevel.medium, ⟨0, 0, 0, 0⟩⟩ false [] (by norm_num)⟩

/-- C9: for every message and context, the urgency score equals the
frustration factor times 0.35 plus the repetition factor times 0.30 plus
the time-sensitivity factor times 0.20 plus the escalation-keyword factor
times 0.15, clamped to `[0, 1]`, with the level determined by the fixed
cut points 0.30 / 0.60 / 0.85; and on a message containing exactly 4
escalation keywords and no other signal the escalation factor is
`min(1, 4 · 0.25) = 1`, contributing `0.15` — the whole score — to the
result. -/
theorem claim9_urgency_formula :
    (∀ (currentMessage : Message) (embeddings : MultiVectorEmbedding)
        (shortTermMemory : Option RedisSessionData)
        (longTermMemories : List QdrantMemoryPoint),
      (calculateUrgency currentMessage embeddings shortTermMemory longTermMemories).score =
        min 1 (max 0
          (calculateFrustrationUrgency embeddings.frustration_vector * 0.35 +
            calculateRepetitionUrgency currentMessage shortTermMemory longTermMemories * 0.3 +
            calculateTimeSensitivityUrgency currentMessage.text * 0.2 +
            calculateEscalationKeywordUrgency currentMessage.text * 0.15)) ∧
      (calculateUrgency currentMessage embeddings shortTermMemory longTermMemories).level =
        (let raw := calculateFrustrationUrgency embeddings.frustration_vector * 0.35 +
            calculateRepetitionUrgency currentMessage shortTermMemory longTermMemories * 0.3 +
            calculateTimeSensitivityUrgency currentMessage.text * 0.2 +
            calculateEscalationKeywordUrgency currentMessage.text * 0.15
        if 0.85 ≤ raw then UrgencyLevel.critical
        else if 0.6 ≤ raw then UrgencyLevel.high
        else if 0.3 ≤ raw then UrgencyLevel.medium
        else UrgencyLevel.low)) ∧
    (calculateUrgency ⟨0, MessageRole.user, "manager supervisor complaint unacceptable", "s"⟩
        ⟨[0], [0], [0]⟩ none []).factors.escalation_keywords = 1 ∧
    (calculateUrgency ⟨0, MessageRole.user, "manager supervisor complaint unacceptable", "s"⟩
        ⟨[0], [0], [0]⟩ none []).score = 0.15 := by
  have hesc : calculateEscalationKeywordUrgency "manager supervisor complaint unacceptable" = 1 := by
    unfold calculateEscalationKeywordUrgency
    rw [show escalationCount "manager supervisor complaint unacceptable" = 4 from by decide]
    norm_num
  have hfr : calculateFrustrationUrgency [(0 : ℝ)] = 0 := by
    unfold calculateFrustrationUrgency
    simp [Real.sqrt_zero]
  have hrep : calculateRepetitionUrgency
      ⟨0, MessageRole.user, "manager supervisor complaint unacceptable", "s"⟩ none [] = 0 := by
    unfold calculateRepetitionUrgency
    norm_num
  have hts : calculateTimeSensitivityUrgency "manager supervisor complaint unacceptable" = 0 := by
    unfold calculateTimeSensitivityUrgency
    rw [show timeSensitiveCount "manager supervisor complaint unacceptable" = 0 from by decide]
    norm_num
  refine ⟨fun cm emb stm ltm => ⟨rfl, rfl⟩, ?_, ?_⟩
  · have hfac : (calculateUrgency
        ⟨0, MessageRole.user, "manager supervisor complaint unacceptable", "s"⟩
        ⟨[0], [0], [0]⟩ none []).factors.escalation_keywords =
        calculateEscalationKeywordUrgency "manager supervisor complaint unacceptable" := rfl
    rw [hfac, hesc]
  · have hgen : (calculateUrgency
        ⟨0, MessageRole.user, "manager supervisor complaint unacceptable", "s"⟩
        ⟨[0], [0], [0]⟩ none []).score =
        min 1 (max 0 (calculateFrustrationUrgency [(0 : ℝ)] * 0.35 +
          calculateRepetitionUrgency
            ⟨0, MessageRole.user, "manager supervisor complaint unacceptable", "s"⟩ none [] * 0.3 +
          calculateTimeSensitivityUrgency "manager supervisor complaint unacceptable" * 0.2 +
          calculateEscalationKeywordUrgency "manager supervisor complaint unacceptable" * 0.15)) :=
      rfl
    rw [hgen, hfr, hrep, hts, hesc]
    norm_num

/-- A squared-norm accumulation is non-negative. -/
lemma loopDot_self_nonneg (n : ℕ) (v : List ℝ) : 0 ≤ loopDot n v v :=
  Finset.sum_nonneg fun _ _ => mul_self_nonneg _

/-- A vector with a non-zero entry has strictly positive squared norm. -/
lemma loopDot_self_pos (v : List ℝ) (hv : ∃ x ∈ v, x ≠ 0) : 0 < loopDot v.length v v := by
  obtain ⟨x, hx, hxne⟩ := hv
  obtain ⟨i, hi, hix⟩ := List.getElem_of_mem hx
  apply Finset.sum_pos' (fun _ _ => mul_self_nonneg _)
  refine ⟨i, Finset.mem_range.mpr hi, ?_⟩
  rw [List.getD_eq_getElem v 0 hi, hix]
  exact mul_self_pos.mpr hxne

/-- C7: cosine similarity of a vector with itself is exactly 1 whenever
the vector has a non-zero entry; it is 0 for any equal-length orthogonal
pair (dot product zero); and whenever either squared norm is zero the
result is the defined value 0 — no division by zero occurs. -/
theorem claim7_cosine_spec :
    (∀ v : List ℝ, (∃ x ∈ v, x ≠ 0) → cosineSimilarity v v = 1) ∧
    (∀ v w : List ℝ, v.length = w.length → loopDot v.length v w = 0 →
      cosineSimilarity v w = 0) ∧
    (∀ v w : List ℝ, loopDot v.length v v = 0 ∨ loopDot w.length w w = 0 →
      cosineSimilarity v w = 0) := by
  refine ⟨?_, ?_, ?_⟩
  · intro v hv
    have hpos := loopDot_self_pos v hv
    unfold cosineSimilarity
    rw [if_neg (by simp)]
    rw [Real.mul_self_sqrt (loopDot_self_nonneg v.length v)]
    rw [if_neg (ne_of_gt hpos)]
    exact div_self (ne_of_gt hpos)
  · intro v w hlen hdot
    unfold cosineSimilarity
    rw [if_neg (by simp [hlen])]
    rw [hdot]
    split_ifs with h
    · rfl
    · exact zero_div _
  · intro v w h
    unfold cosineSimilarity
    by_cases hlen : v.length = w.length
    · rw [if_neg (by simp [hlen])]
      rcases h with h | h
      · rw [h, Real.sqrt_zero, zero_mul, if_pos rfl]
      · rw [hlen, h, Real.sqrt_zero, mul_zero, if_pos rfl]
    · rw [if_pos hlen]

/-- Closed witness for C7: the three cases evaluated at concrete vectors
`[1,2]` (identical non-zero), `[1,0]`/`[0,1]` (orthogonal) and
`[0,0]`/`[3,4]` (zero norm on the left). -/
theorem claim7_cosine_spec_witness :
    cosineSimilarity [(1 : ℝ), 2] [(1 : ℝ), 2] = 1 ∧
    cosineSimilarity [(1 : ℝ), 0] [(0 : ℝ), 1] = 0 ∧
    cosineSimilarity [(0 : ℝ), 0] [(3 : ℝ), 4] = 0 :=
  ⟨claim7_cosine_spec.1 [(1 : ℝ), 2] ⟨1, by simp, one_ne_zero⟩,
   claim7_cosine_spec.2.1 [(1 : ℝ), 0] [(0 : ℝ), 1] rfl
     (by norm_num [loopDot, Finset.sum_range_succ]),
   claim7_cosine_spec.2.2 [(0 : ℝ), 0] [(3 : ℝ), 4]
     (Or.inl (by norm_num [loopDot, Finset.sum_range_succ]))⟩

/-- Cauchy–Schwarz for the accumulation loops: cosine similarity always
lies in `[-1, 1]`. -/
lemma cosineSimilarity_bounds (v w : List ℝ) :
    -1 ≤ cosineSimilarity v w ∧ cosineSimilarity v w ≤ 1 := by
  apply abs_le.mp
  unfold cosineSimilarity
  split_ifs with h1 h2
  · simp
  · simp
  · have hN1 : 0 ≤ loopDot v.length v v := loopDot_self_nonneg _ _
    have hden : 0 < Real.sqrt (loopDot v.length v v) * Real.sqrt (loopDot v.length w w) := by
      rcases lt_or_eq_of_le
          (mul_nonneg (Real.sqrt_nonneg (loopDot v.length v v))
            (Real.sqrt_nonneg (loopDot v.length w w))) with h | h
      · exact h
      · exact absurd h.symm h2
    have hcs : loopDot v.length v w * loopDot v.length v w ≤
        loopDot v.length v v * loopDot v.length w w := by
      have h := Finset.sum_mul_sq_le_sq_mul_sq (Finset.range v.length)
        (fun i => v.getD i 0) (fun i => w.getD i 0)
      simp only [pow_two] at h
      exact h
    have habs : |loopDot v.length v w| ≤
        Real.sqrt (loopDot v.length v v) * Real.sqrt (loopDot v.length w w) := by
      rw [← Real.sqrt_sq_eq_abs, ← Real.sqrt_mul hN1]
      apply Real.sqrt_le_sqrt
      rw [pow_two]
      exact hcs
    rw [abs_div, abs_of_pos hden]
    rw [div_le_one hden]
    exact habs

/-- The mean of a list of values in `[-1, 1]` lies in `[-1, 1]` (with the
empty mean `0/0 = 0`). -/
lemma mean_bounds (l : List ℝ) (h : ∀ x ∈ l, -1 ≤ x ∧ x ≤ 1) :
    -1 ≤ l.sum / l.length ∧ l.sum / l.length ≤ 1 := by
  rcases eq_or_ne l [] with rfl | hne
  · norm_num
  · have hlen : 0 < (l.length : ℝ) := by
      have := List.length_pos.mpr hne
      exact_mod_cast this
    have hup : l.sum ≤ l.length • (1 : ℝ) := List.sum_le_card_nsmul l 1 fun x hx => (h x hx).2
    have hlow : l.length • (-1 : ℝ) ≤ l.sum := List.card_nsmul_le_sum l (-1) fun x hx => (h x hx).1
    rw [nsmul_eq_mul] at hup hlow
    constructor
    · rw [le_div_iff hlen]
      linarith
    · rw [div_le_one hlen]
      linarith

/-- The vector-similarity signal (mean cosine similarity) lies in
`[-1, 1]` for every input. -/
lemma calculateVectorSimilarity_bounds (emb : MultiVectorEmbedding)
    (hv : List HistoricalPoint) :
    -1 ≤ calculateVectorSimilarity emb hv ∧ calculateVectorSimilarity emb hv ≤ 1 := by
  unfold calculateVectorSimilarity
  split_ifs with h
  · norm_num
  · apply mean_bounds
    intro x hx
    obtain ⟨p, _, rfl⟩ := List.mem_map.mp hx
    exact cosineSimilarity_bounds _ _

/-- The metadata-similarity signal lies in `[0, 1]` for every input. -/
lemma calculateMetadataSimilarity_bounds (a b : Option SessionMetadata) :
    0 ≤ calculateMetadataSimilarity a b ∧ calculateMetadataSimilarity a b ≤ 1 := by
  unfold calculateMetadataSimilarity
  match a, b with
  | none, none => norm_num
  | none, some _ => norm_num
  | some _, none => norm_num
  | some x, some y =>
    simp only []
    split_ifs with h
    · have hle : (metadataCounts x y).1 ≤ (metadataCounts x y).2 := by
        unfold metadataCounts
        dsimp only
        apply List.countP_mono_left
        intro p _ hp
        simp only [Bool.and_eq_true] at hp ⊢
        exact hp.1
      have hpos : 0 < ((metadataCounts x y).2 : ℝ) := by exact_mod_cast h
      constructor
      · positivity
      · rw [div_le_one hpos]
        exact_mod_cast hle
    · norm_num

/-- The two density ratios of a writing-style analysis lie in `[0, 1]`,
and the average length is non-negative. -/
lemma analyzeWritingStyle_bounds (messages : List TextMsg) :
    0 ≤ (analyzeWritingStyle messages).avgLength ∧
    (0 ≤ (analyzeWritingStyle messages).punctuationRatio ∧
      (analyzeWritingStyle messages).punctuationRatio ≤ 1) ∧
    (0 ≤ (analyzeWritingStyle messages).capitalizationRatio ∧
      (analyzeWritingStyle messages).capitalizationRatio ≤ 1) := by
  have hp : (messages.map fun m => m.text.data.countP isPunctChar).sum ≤
      (messages.map fun m => m.text.length).sum :=
    List.sum_le_sum fun m _ => List.countP_le_length _
  have hc : (messages.map fun m => m.text.data.countP isUpperAZ).sum ≤
      (messages.map fun m => m.text.length).sum :=
    List.sum_le_sum fun m _ => List.countP_le_length _
  unfold analyzeWritingStyle
  split_ifs with h
  · norm_num
  · dsimp only
    set T : ℕ := (messages.map fun m => m.text.length).sum with hT
    refine ⟨by positivity, ?_, ?_⟩ <;> split_ifs with hpos
    · have hposR : (0 : ℝ) < (T : ℝ) := by exact_mod_cast hpos
      constructor
      · positivity
      · rw [div_le_one hposR]
        exact_mod_cast hp
    · norm_num
    · have hposR : (0 : ℝ) < (T : ℝ) := by exact_mod_cast hpos
      constructor
      · positivity
      · rw [div_le_one hposR]
        exact_mod_cast hc
    · norm_num

/-- The behavior-similarity signal lies in `[0, 1]` for every input. -/
lemma calculateBehaviorSimilarity_bounds (cur hist : List TextMsg) :
    0 ≤ calculateBehaviorSimilarity cur hist ∧ calculateBehaviorSimilarity cur hist ≤ 1 := by
  unfold calculateBehaviorSimilarity
  split_ifs with h
  · norm_num
  · simp only []
    obtain ⟨_, ⟨hp1a, hp1b⟩, hc1a, hc1b⟩ := analyzeWritingStyle_bounds cur
    obtain ⟨_, ⟨hp2a, hp2b⟩, hc2a, hc2b⟩ := analyzeWritingStyle_bounds hist
    have hxd : (0 : ℝ) ≤
        |(analyzeWritingStyle cur).avgLength - (analyzeWritingStyle hist).avgLength| / 100 := by
      positivity
    have hmin1 : (0 : ℝ) ≤ min 1
        (|(analyzeWritingStyle cur).avgLength - (analyzeWritingStyle hist).avgLength| / 100) :=
      le_min (by norm_num) hxd
    have hmin2 : min 1
        (|(analyzeWritingStyle cur).avgLength - (analyzeWritingStyle hist).avgLength| / 100) ≤ 1 :=
      min_le_left _ _
    have hpd : |(analyzeWritingStyle cur).punctuationRatio -
        (analyzeWritingStyle hist).punctuationRatio| ≤ 1 :=
      abs_le.mpr ⟨by linarith, by linarith⟩
    have hpd0 : (0 : ℝ) ≤ |(analyzeWritingStyle cur).punctuationRatio -
        (analyzeWritingStyle hist).punctuationRatio| := abs_nonneg _
    have hcd : |(analyzeWritingStyle cur).capitalizationRatio -
        (analyzeWritingStyle hist).capitalizationRatio| ≤ 1 :=
      abs_le.mpr ⟨by linarith, by linarith⟩
    have hcd0 : (0 : ℝ) ≤ |(analyzeWritingStyle cur).capitalizationRatio -
        (analyzeWritingStyle hist).capitalizationRatio| := abs_nonneg _
    constructor
    · rw [le_div_iff (by norm_num : (0 : ℝ) < 3)]
      linarith
    · rw [div_le_one (by norm_num : (0 : ℝ) < 3)]
      linarith

/-- Bound for a `foldl`-computed maximum of values in `[0, 1]`. -/
lemma foldl_max_bounds (g : String → ℝ) (hg : ∀ t, 0 ≤ g t ∧ g t ≤ 1) :
    ∀ (l : List String) (acc : ℝ), 0 ≤ acc → acc ≤ 1 →
      0 ≤ l.foldl (fun a t => max a (g t)) acc ∧ l.foldl (fun a t => max a (g t)) acc ≤ 1 := by
  intro l
  induction l with
  | nil => exact fun acc h0 h1 => ⟨h0, h1⟩
  | cons t ts ih =>
    intro acc h0 h1
    simp only [List.foldl_cons]
    exact ih (max acc (g t)) (le_max_of_le_left h0) (max_le h1 (hg t).2)

/-- The identifier-overlap signal lies in `[0, 1]` for every input. -/
lemma calculateIdentifierOverlap_bounds (t : String) (hs : List String) :
    0 ≤ calculateIdentifierOverlap t hs ∧ calculateIdentifierOverlap t hs ≤ 1 := by
  unfold calculateIdentifierOverlap
  split_ifs with h1
  · exact ⟨le_refl 0, zero_le_one⟩
  · dsimp only
    split_ifs with h2
    · exact ⟨le_refl 0, zero_le_one⟩
    · apply foldl_max_bounds _ _ hs 0 (le_refl 0) zero_le_one
      intro ht
      split_ifs with hu
      · have hle : ((extractIdentifiers t).toFinset ∩ (extractIdentifiers ht).toFinset).card ≤
            ((extractIdentifiers t).toFinset ∪ (extractIdentifiers ht).toFinset).card :=
          Finset.card_le_card Finset.inter_subset_union
        have hpos : (0 : ℝ) <
            ((extractIdentifiers t).toFinset ∪ (extractIdentifiers ht).toFinset).card := by
          exact_mod_cast hu
        constructor
        · positivity
        · rw [div_le_one hpos]
          exact_mod_cast hle
      · norm_num

/-- C8 counterexample: the claim puts all four signals in `[0, 1]`, but
the vector-similarity signal is a mean of raw cosine similarities, which
are negative for opposed vectors: with incoming intent vector `[1]` and a
single candidate with intent vector `[-1]`, the signal is `-1 < 0`. -/
theorem claim8_vector_similarity_negative :
    calculateVectorSimilarity ⟨[1], [], []⟩ [⟨"p", [-1]⟩] = -1 ∧ ((-1 : ℝ) < 0) := by
  constructor
  · have h1 : loopDot ([(1 : ℝ)]).length [(1 : ℝ)] [(1 : ℝ)] = 1 := by
      simp [loopDot]
    have h2 : loopDot ([(1 : ℝ)]).length [(1 : ℝ)] [(-1 : ℝ)] = -1 := by
      simp [loopDot]
    have h3 : loopDot ([(1 : ℝ)]).length [(-1 : ℝ)] [(-1 : ℝ)] = 1 := by
      simp [loopDot]
    have hcos : cosineSimilarity [(1 : ℝ)] [(-1 : ℝ)] = -1 := by
      unfold cosineSimilarity
      rw [if_neg (by simp), h1, h2, h3, Real.sqrt_one, mul_one, if_neg one_ne_zero]
      norm_num
    unfold calculateVectorSimilarity
    rw [if_neg (by simp)]
    simp [hcos]
  · norm_num

/-- C8 (amended): for every input, the metadata-similarity,
behavior-similarity and identifier-overlap signals lie in `[0, 1]`; the
vector-similarity signal lies in `[-1, 1]` (it can be negative for
opposed vectors, see the counterexample). -/
theorem claim8_amended_signal_bounds :
    (∀ a b : Option SessionMetadata,
      0 ≤ calculateMetadataSimilarity a b ∧ calculateMetadataSimilarity a b ≤ 1) ∧
    (∀ cur hist : List TextMsg,
      0 ≤ calculateBehaviorSimilarity cur hist ∧ calculateBehaviorSimilarity cur hist ≤ 1) ∧
    (∀ (t : String) (hs : List String),
      0 ≤ calculateIdentifierOverlap t hs ∧ calculateIdentifierOverlap t hs ≤ 1) ∧
    (∀ (emb : MultiVectorEmbedding) (hv : List HistoricalPoint),
      -1 ≤ calculateVectorSimilarity emb hv ∧ calculateVectorSimilarity emb hv ≤ 1) :=
  ⟨calculateMetadataSimilarity_bounds, calculateBehaviorSimilarity_bounds,
   calculateIdentifierOverlap_bounds, calculateVectorSimilarity_bounds⟩

/-- C1: with a non-empty historical candidate list, the combined match
score is `0.35 · vectorSim + 0.25 · metadataSim + 0.20 · behaviorSim +
0.20 · identifierSim` and the resolver returns the first candidate's
`pseudo_user_id` exactly when this score strictly exceeds 0.82; when it
does not, `linkIdentity` mints a fresh id instead.  In particular, when
all four component signals equal 1.0, the match score is exactly 1.0 and
the first candidate's `pseudo_user_id` is returned. -/
theorem claim1_match_threshold (embeddings : MultiVectorEmbedding)
    (metadata : Option SessionMetadata) (currentMessages : List TextMsg)
    (first : HistoricalPoint) (rest : List HistoricalPoint)
    (historicalMetadata : Option SessionMetadata) (historicalMessages : List TextMsg) :
    (matchScore embeddings metadata currentMessages (first :: rest) historicalMetadata
        historicalMessages =
      0.35 * calculateVectorSimilarity embeddings (first :: rest) +
        0.25 * calculateMetadataSimilarity metadata historicalMetadata +
        0.2 * calculateBehaviorSimilarity currentMessages historicalMessages +
        0.2 * calculateIdentifierOverlap
          (String.intercalate " " (currentMessages.map fun m => m.text))
          (historicalMessages.map fun m => m.text)) ∧
    (findExistingPseudoUserId embeddings metadata currentMessages (first :: rest)
        historicalMetadata historicalMessages = some first.pseudo_user_id ↔
      matchScore embeddings metadata currentMessages (first :: rest) historicalMetadata
        historicalMessages > 0.82) ∧
    (¬ matchScore embeddings metadata currentMessages (first :: rest) historicalMetadata
        historicalMessages > 0.82 →
      ∀ (rand : ℕ → ℚ) (start : ℕ),
        linkIdentity rand start embeddings metadata (some (first :: rest)) currentMessages
          historicalMessages historicalMetadata = generatePseudoUserId rand start) ∧
    (calculateVectorSimilarity embeddings (first :: rest) = 1 →
      calculateMetadataSimilarity metadata historicalMetadata = 1 →
      calculateBehaviorSimilarity currentMessages historicalMessages = 1 →
      calculateIdentifierOverlap
          (String.intercalate " " (currentMessages.map fun m => m.text))
          (historicalMessages.map fun m => m.text) = 1 →
      matchScore embeddings metadata currentMessages (first :: rest) historicalMetadata
          historicalMessages = 1 ∧
        findExistingPseudoUserId embeddings metadata currentMessages (first :: rest)
          historicalMetadata historicalMessages = some first.pseudo_user_id) := by
  have hms : matchScore embeddings metadata currentMessages (first :: rest) historicalMetadata
      historicalMessages =
      0.35 * calculateVectorSimilarity embeddings (first :: rest) +
        0.25 * calculateMetadataSimilarity metadata historicalMetadata +
        0.2 * calculateBehaviorSimilarity currentMessages historicalMessages +
        0.2 * calculateIdentifierOverlap
          (String.intercalate " " (currentMessages.map fun m => m.text))
          (historicalMessages.map fun m => m.text) := rfl
  have hfind : ∀ h : matchScore embeddings metadata currentMessages (first :: rest)
      historicalMetadata historicalMessages > MATCH_THRESHOLD,
      findExistingPseudoUserId embeddings metadata currentMessages (first :: rest)
        historicalMetadata historicalMessages = some first.pseudo_user_id := by
    intro h
    unfold findExistingPseudoUserId
    dsimp only
    rw [if_pos h]
  have hfindneg : ∀ _ : ¬ matchScore embeddings metadata currentMessages (first :: rest)
      historicalMetadata historicalMessages > MATCH_THRESHOLD,
      findExistingPseudoUserId embeddings metadata currentMessages (first :: rest)
        historicalMetadata historicalMessages = none := by
    intro h
    unfold findExistingPseudoUserId
    dsimp only
    rw [if_neg h]
  have hthr : MATCH_THRESHOLD = (0.82 : ℝ) := rfl
  refine ⟨hms, ⟨?_, ?_⟩, ?_, ?_⟩
  · intro heq
    by_cases h : matchScore embeddings metadata currentMessages (first :: rest)
        historicalMetadata historicalMessages > MATCH_THRESHOLD
    · rw [← hthr]
      exact h
    · rw [hfindneg h] at heq
      cases heq
  · intro h
    exact hfind (by rw [hthr]; exact h)
  · intro h rand start
    unfold linkIdentity
    dsimp only
    rw [hfindneg (by rw [hthr]; exact h)]
  · intro h1 h2 h3 h4
    have hone : matchScore embeddings metadata currentMessages (first :: rest)
        historicalMetadata historicalMessages = 1 := by
      rw [hms, h1, h2, h3, h4]
      norm_num
    refine ⟨hone, hfind ?_⟩
    rw [hone, hthr]
    norm_num

/-- Closed witness for C1: the score/return equivalence instantiated at a
concrete candidate list. -/
theorem claim1_match_threshold_witness :
    findExistingPseudoUserId ⟨[1], [], []⟩ none [] [⟨"PID", [1]⟩] none [] = some "PID" ↔
      matchScore ⟨[1], [], []⟩ none [] [⟨"PID", [1]⟩] none [] > 0.82 :=
  (claim1_match_threshold ⟨[1], [], []⟩ none [] ⟨"PID", [1]⟩ [] none []).2.1

end Synapse
